import Mathlib

/-!
Shallow embedding of the ABIDES configuration generator (src/configgen.py).

The embedding models the override resolver (apply_template_to_args), the
agent-count scaling step, the validators, the filename sanitizer, the
agent-population section layout and the main generation pipeline.  Python
ints are embedded as Int, the float scaling factor as Rat (exact rational
arithmetic), Python exceptions as Except, and the output file at the
output path as an Option holding the ordered list of emitted sections.
-/

namespace ConfigGen

/-! ## Constants (configgen.py lines 142-151) -/

def VERSION : String := "1.0.0"

def DEFAULT_MARKET_DATE : String := "2019-06-28"

def DEFAULT_MARKET_OPEN : String := "09:30:00"

def DEFAULT_MARKET_CLOSE : String := "16:00:00"

def DEFAULT_STARTING_CASH : Int := 10000000

def DEFAULT_SYMBOL : String := "JPM"

def MAX_FILENAME_LENGTH : Nat := 100

/-! ## String helpers used by validate_config_filename -/

/-- Python whitespace characters, the set matched by str.strip and regex backslash-s. -/
def pyIsSpace (c : Char) : Bool :=
  c = ' ' || c = '\t' || c = '\n' || c = '\r' || c = '\x0b' || c = '\x0c'

/-- The character class of the regex in validate_config_filename (line 394). -/
def invalidFilenameChar (c : Char) : Bool :=
  c = '<' || c = '>' || c = ':' || c = '"' || c = '/' || c = '\\' ||
  c = '|' || c = '?' || c = '*' || pyIsSpace c

/-- Python str.strip: drop leading and trailing whitespace. -/
def pyStrip (s : String) : String :=
  String.mk (((s.toList.dropWhile pyIsSpace).reverse.dropWhile pyIsSpace).reverse)

/-- One pass of re.sub with a one-or-more character class: a maximal run of
invalid characters becomes a single underscore.  The flag records whether the
previous character belonged to a run. -/
def squashAux (prevRun : Bool) : List Char → List Char
  | [] => []
  | c :: rest =>
    if invalidFilenameChar c then
      (if prevRun then [] else ['_']) ++ squashAux true rest
    else c :: squashAux false rest

/-- re.sub of the invalid-character class by an underscore (line 394). -/
def pySub (cs : List Char) : List Char := squashAux false cs

/-- Characters allowed in a sanitized filename: alphanumerics, underscore, hyphen. -/
def validFilenameChar (c : Char) : Bool := c.isAlphanum || c = '_' || c = '-'

/-! ## validate_config_filename (lines 385-402) -/

def validate_config_filename (filename : Option String) : Except String (Option String) :=
  match filename with
  | none => .ok none
  | some fn =>
    if fn = "" then .ok none
    else
      let cleaned := pyStrip fn
      if MAX_FILENAME_LENGTH < cleaned.length then .error "Filename too long"
      else
        let sanitized := pySub cleaned.toList
        let replaced := sanitized.map fun c =>
          if c = '_' then 'a' else if c = '-' then 'a' else c
        if replaced.isEmpty || !replaced.all Char.isAlphanum then
          .error "Filename contains invalid characters"
        else
          let out :=
            if sanitized.reverse.take 3 = ['y', 'p', '.'] then sanitized
            else sanitized ++ ['.', 'p', 'y']
          .ok (some (String.mk out))

/-! ## Date and time parsing (strptime with the fixed formats of lines 150-151) -/

def digitsVal (cs : List Char) : Nat :=
  cs.foldl (fun a c => 10 * a + (c.toNat - 48)) 0

def isLeapYear (y : Nat) : Bool :=
  (y % 4 = 0 && y % 100 ≠ 0) || y % 400 = 0

def daysInMonth (y m : Nat) : Nat :=
  if m = 2 then (if isLeapYear y then 29 else 28)
  else if m = 4 || m = 6 || m = 9 || m = 11 then 30
  else 31

/-- strptime with format percent-Y dash percent-m dash percent-d: a four digit
year, a one or two digit month in 1..12, a one or two digit day valid for the
calendar month, nothing left over, and a year accepted by datetime. -/
def parseDate (s : String) : Option (Nat × Nat × Nat) :=
  let cs := s.toList
  let ys := cs.takeWhile Char.isDigit
  let r1 := cs.dropWhile Char.isDigit
  if ys.length = 4 then
    match r1 with
    | '-' :: r2 =>
      let ms := r2.takeWhile Char.isDigit
      let r3 := r2.dropWhile Char.isDigit
      if 1 ≤ ms.length ∧ ms.length ≤ 2 then
        match r3 with
        | '-' :: r4 =>
          let ds := r4.takeWhile Char.isDigit
          let r5 := r4.dropWhile Char.isDigit
          if 1 ≤ ds.length ∧ ds.length ≤ 2 ∧ r5 = [] then
            let yv := digitsVal ys
            let mv := digitsVal ms
            let dv := digitsVal ds
            if 1 ≤ yv ∧ 1 ≤ mv ∧ mv ≤ 12 ∧ 1 ≤ dv ∧ dv ≤ daysInMonth yv mv then
              some (yv, mv, dv)
            else none
          else none
        | _ => none
      else none
    | _ => none
  else none

/-- strptime with format percent-H colon percent-M colon percent-S: one or two
digit fields, hour 0..23, minute 0..59, second 0..59, nothing left over. -/
def parseTime (s : String) : Option (Nat × Nat × Nat) :=
  let cs := s.toList
  let hs := cs.takeWhile Char.isDigit
  let r1 := cs.dropWhile Char.isDigit
  if 1 ≤ hs.length ∧ hs.length ≤ 2 then
    match r1 with
    | ':' :: r2 =>
      let ms := r2.takeWhile Char.isDigit
      let r3 := r2.dropWhile Char.isDigit
      if 1 ≤ ms.length ∧ ms.length ≤ 2 then
        match r3 with
        | ':' :: r4 =>
          let ss := r4.takeWhile Char.isDigit
          let r5 := r4.dropWhile Char.isDigit
          if 1 ≤ ss.length ∧ ss.length ≤ 2 ∧ r5 = [] then
            let hv := digitsVal hs
            let mv := digitsVal ms
            let sv := digitsVal ss
            if hv ≤ 23 ∧ mv ≤ 59 ∧ sv ≤ 59 then some (hv, mv, sv) else none
          else none
        | _ => none
      else none
    | _ => none
  else none

/-! ## Validators (lines 405-491).  A raised ValueError is an Except.error;
a logged warning is the Bool component of the ok result. -/

/-- validate_market_date (lines 405-417).  datetime.now().year is passed in
explicitly as currentYear. -/
def validate_market_date (currentYear : Nat) (date_str : String) : Except String String :=
  match parseDate date_str with
  | none => .error "Invalid date format"
  | some (y, _, _) =>
    if y < 1990 ∨ currentYear + 1 < y then .error "Market date out of range"
    else .ok date_str

/-- validate_market_time (lines 420-431). -/
def validate_market_time (time_str : String) : Except String (String × Bool) :=
  match parseTime time_str with
  | none => .error "Invalid time format"
  | some (h, _, _) => .ok (time_str, decide (h < 4 ∨ 22 < h))

/-- validate_agent_count (lines 434-448). -/
def validate_agent_count : Option Int → Except String (Int × Bool)
  | none => .ok (0, false)
  | some c =>
    if c < 0 then .error "count must be non-negative"
    else .ok (c, decide (10000 < c))

/-- validate_starting_cash (lines 451-466). -/
def validate_starting_cash (cash : Int) : Except String (Int × Bool) :=
  if cash < 0 then .error "Starting cash cannot be negative"
  else .ok (cash, decide (cash = 0 ∨ cash < 100000 ∨ 10000000000 < cash))

/-- validate_agents_scale (lines 469-482). -/
def validate_agents_scale (scale : ℚ) : Except String (ℚ × Bool) :=
  if scale ≤ 0 then .error "Agents scale must be positive"
  else .ok (scale, decide (10 < scale ∨ scale < 1 / 100))

def exceptIsOk {α : Type} (e : Except String α) : Bool :=
  match e with
  | .ok _ => true
  | .error _ => false

/-! ## Argument record and templates (lines 58-140, 246-279) -/

structure Args where
  market_makers : Int
  adaptive_market_makers : Int
  zero_intelligence : Int
  noise_agents : Int
  value_agents : Int
  momentum_agents : Int
  starting_cash : Int
  symbol : String
  market_date : String
  market_open : String
  market_close : String
deriving DecidableEq

structure MarketParams where
  starting_cash : Option Int
  symbol : Option String
  market_date : Option String
  market_open : Option String
  market_close : Option String
deriving DecidableEq

structure Template where
  description : String
  market_makers : Option Int
  adaptive_market_makers : Option Int
  zero_intelligence : Option Int
  noise_agents : Option Int
  value_agents : Option Int
  momentum_agents : Option Int
  market_params : Option MarketParams
deriving DecidableEq

def rmsc03 : Template :=
  { description := "RMSC-3"
    market_makers := some 0
    adaptive_market_makers := some 2
    value_agents := some 100
    momentum_agents := some 25
    noise_agents := some 5000
    zero_intelligence := some 0
    market_params := some
      { starting_cash := some 10000000
        symbol := some "ABM"
        market_date := some "2020-06-03"
        market_open := some "09:30:00"
        market_close := some "16:00:00" } }

def rmsc04 : Template :=
  { description := "RMSC-4"
    market_makers := some 0
    adaptive_market_makers := some 2
    value_agents := some 102
    momentum_agents := some 12
    noise_agents := some 1000
    zero_intelligence := some 0
    market_params := some
      { starting_cash := some 10000000
        symbol := some "ABM"
        market_date := some "2021-02-05"
        market_open := some "09:30:00"
        market_close := some "10:00:00" } }

def hft : Template :=
  { description := "HFT"
    market_makers := some 10
    adaptive_market_makers := some 0
    zero_intelligence := some 1000
    noise_agents := some 500
    value_agents := some 0
    momentum_agents := some 0
    market_params := some
      { starting_cash := some 10000000
        symbol := some "JPM"
        market_date := none
        market_open := none
        market_close := none } }

def minimal : Template :=
  { description := "Minimal"
    market_makers := some 1
    zero_intelligence := some 10
    noise_agents := some 5
    value_agents := some 0
    momentum_agents := some 0
    adaptive_market_makers := some 0
    market_params := some
      { starting_cash := some 1000000
        symbol := some "TEST"
        market_date := none
        market_open := none
        market_close := none } }

def behavioral : Template :=
  { description := "Behavioral"
    market_makers := some 3
    adaptive_market_makers := some 2
    value_agents := some 50
    momentum_agents := some 75
    noise_agents := some 200
    zero_intelligence := some 100
    market_params := some
      { starting_cash := some 5000000
        symbol := some "BEH"
        market_date := none
        market_open := none
        market_close := none } }

def RESEARCH_TEMPLATES : List (String × Template) :=
  [("rmsc03", rmsc03), ("rmsc04", rmsc04), ("hft", hft),
   ("minimal", minimal), ("behavioral", behavioral)]

def lookupTemplate (name : String) : Option Template :=
  RESEARCH_TEMPLATES.lookup name

/-- An agent count is overridden by the template only when the current value is
falsy, that is zero (lines 252-263). -/
def applyCount (cur : Int) (tv : Option Int) : Int :=
  match tv with
  | some v => if cur = 0 then v else cur
  | none => cur

/-- A market parameter is overridden only when the current value equals the
built-in default (lines 266-277). -/
def applyParam {α : Type} [DecidableEq α] (cur dflt : α) (tv : Option α) : α :=
  match tv with
  | some v => if cur = dflt then v else cur
  | none => cur

/-- apply_template_to_args (lines 246-279). -/
def apply_template_to_args (t : Template) (a : Args) : Args :=
  let a1 : Args :=
    { a with
      market_makers := applyCount a.market_makers t.market_makers
      adaptive_market_makers := applyCount a.adaptive_market_makers t.adaptive_market_makers
      zero_intelligence := applyCount a.zero_intelligence t.zero_intelligence
      noise_agents := applyCount a.noise_agents t.noise_agents
      value_agents := applyCount a.value_agents t.value_agents
      momentum_agents := applyCount a.momentum_agents t.momentum_agents }
  match t.market_params with
  | none => a1
  | some p =>
    { a1 with
      starting_cash := applyParam a1.starting_cash DEFAULT_STARTING_CASH p.starting_cash
      symbol := applyParam a1.symbol DEFAULT_SYMBOL p.symbol
      market_date := applyParam a1.market_date DEFAULT_MARKET_DATE p.market_date
      market_open := applyParam a1.market_open DEFAULT_MARKET_OPEN p.market_open
      market_close := applyParam a1.market_close DEFAULT_MARKET_CLOSE p.market_close }

/-! ## Agent-count scaling (main, lines 1058-1071).  Python int() truncates
toward zero. -/

def pyInt (q : ℚ) : Int :=
  if 0 ≤ q then Rat.floor q else -(Rat.floor (-q))

def scaleCount (s : ℚ) (c : Int) : Int := pyInt ((c : ℚ) * s)

/-- The scaling block of main runs only when the scale differs from 1. -/
def scaleArgs (s : ℚ) (a : Args) : Args :=
  if s = 1 then a
  else
    { a with
      market_makers := scaleCount s a.market_makers
      adaptive_market_makers := scaleCount s a.adaptive_market_makers
      zero_intelligence := scaleCount s a.zero_intelligence
      noise_agents := scaleCount s a.noise_agents
      value_agents := scaleCount s a.value_agents
      momentum_agents := scaleCount s a.momentum_agents }

/-! ## Agent-population section (generate_agents_section, lines 656-851).
Each emitted construction block is recorded as the agent type together with
the list of identifiers it constructs. -/

inductive AgentType
  | exchange
  | marketMaker
  | adaptiveMarketMaker
  | zeroIntelligence
  | noiseAgent
  | valueAgent
  | momentumAgent
deriving DecidableEq

def rangeFrom (start cnt : Nat) : List Nat := (List.range cnt).map (· + start)

/-- The blocks of generate_agents_section in emission order: Exchange first
with identifier 0, then market makers (line 701), zero intelligence (722),
noise (741), value (765), momentum (783), adaptive market makers (807), each
only when its count is positive, with a running identifier counter. -/
def agentsBlocks (mm amm zi na va mo : Nat) : List (AgentType × List Nat) :=
  let c1 := 1
  let mmB := if 0 < mm then [(AgentType.marketMaker, rangeFrom c1 mm)] else []
  let c2 := c1 + mm
  let ziB := if 0 < zi then [(AgentType.zeroIntelligence, rangeFrom c2 zi)] else []
  let c3 := c2 + zi
  let naB := if 0 < na then [(AgentType.noiseAgent, rangeFrom c3 na)] else []
  let c4 := c3 + na
  let vaB := if 0 < va then [(AgentType.valueAgent, rangeFrom c4 va)] else []
  let c5 := c4 + va
  let moB := if 0 < mo then [(AgentType.momentumAgent, rangeFrom c5 mo)] else []
  let c6 := c5 + mo
  let ammB := if 0 < amm then [(AgentType.adaptiveMarketMaker, rangeFrom c6 amm)] else []
  (AgentType.exchange, [0]) :: (mmB ++ ziB ++ naB ++ vaB ++ moB ++ ammB)

/-- The final value of the running counter agent_count. -/
def finalAgentCount (mm amm zi na va mo : Nat) : Nat :=
  1 + mm + zi + na + va + mo + amm

/-- The spec claims the fixed emission order market maker, adaptive market
maker, zero-intelligence, noise, value, momentum.  This definition follows the
words of the spec and is compared against agentsBlocks, which follows the
code. -/
def specOrderAgentsBlocks (mm amm zi na va mo : Nat) : List (AgentType × List Nat) :=
  let c1 := 1
  let mmB := if 0 < mm then [(AgentType.marketMaker, rangeFrom c1 mm)] else []
  let c2 := c1 + mm
  let ammB := if 0 < amm then [(AgentType.adaptiveMarketMaker, rangeFrom c2 amm)] else []
  let c3 := c2 + amm
  let ziB := if 0 < zi then [(AgentType.zeroIntelligence, rangeFrom c3 zi)] else []
  let c4 := c3 + zi
  let naB := if 0 < na then [(AgentType.noiseAgent, rangeFrom c4 na)] else []
  let c5 := c4 + na
  let vaB := if 0 < va then [(AgentType.valueAgent, rangeFrom c5 va)] else []
  let c6 := c5 + va
  let moB := if 0 < mo then [(AgentType.momentumAgent, rangeFrom c6 mo)] else []
  (AgentType.exchange, [0]) :: (mmB ++ ammB ++ ziB ++ naB ++ vaB ++ moB)

/-! ## Emission sink and main pipeline (write_to_config_file lines 494-506,
main lines 1011-1171).  The file at the output path is modeled as an Option
holding the list of sections appended so far; none means the file is absent. -/

inductive SectionKind
  | imports
  | config
  | oracle
  | agents
  | kernel
  | gym
deriving DecidableEq

/-- write_to_config_file opens the file in append mode, creating it when
absent, and appends one section. -/
def write_to_config_file (file : Option (List SectionKind)) (s : SectionKind) :
    Option (List SectionKind) :=
  some (file.getD [] ++ [s])

/-- The generation phase of main (lines 1132-1155): remove any pre-existing
file, then append the sections in order, the gym section only in gym mode. -/
def generateAll (gymMode : Bool) : Option (List SectionKind) :=
  let f0 : Option (List SectionKind) := none
  let f1 := write_to_config_file f0 .imports
  let f2 := write_to_config_file f1 .config
  let f3 := write_to_config_file f2 .oracle
  let f4 := write_to_config_file f3 .agents
  let f5 := write_to_config_file f4 .kernel
  if gymMode then write_to_config_file f5 .gym else f5

def sectionsList (gymMode : Bool) : List SectionKind :=
  [.imports, .config, .oracle, .agents, .kernel] ++ if gymMode then [.gym] else []

structure MainInput where
  listTemplates : Bool
  templateInfo : Option String
  gymMode : Bool
  batchMode : Bool
  gui : Bool
  guiAvailable : Bool
  validateOnly : Bool
  template : Option String
  agentsScale : ℚ
  configName : Option String
  timestamp : String
  currentYear : Nat
  args : Args
deriving DecidableEq

/-- The template step of main (lines 1049-1055). -/
def templateApplied (inp : MainInput) : Args :=
  match inp.template with
  | none => inp.args
  | some n =>
    match lookupTemplate n with
    | some t => apply_template_to_args t inp.args
    | none => inp.args

/-- The argument state after template resolution and scaling, in that order
(lines 1049-1071). -/
def resolvedArgs (inp : MainInput) : Args :=
  scaleArgs inp.agentsScale (templateApplied inp)

/-- The validation block of main (lines 1074-1087): generation proceeds only
when every validator returns normally. -/
def validateInputs (currentYear : Nat) (a : Args) : Bool :=
  exceptIsOk (validate_market_date currentYear a.market_date)
  && exceptIsOk (validate_market_time a.market_open)
  && exceptIsOk (validate_market_time a.market_close)
  && exceptIsOk (validate_agent_count (some a.market_makers))
  && exceptIsOk (validate_agent_count (some a.adaptive_market_makers))
  && exceptIsOk (validate_agent_count (some a.zero_intelligence))
  && exceptIsOk (validate_agent_count (some a.noise_agents))
  && exceptIsOk (validate_agent_count (some a.value_agents))
  && exceptIsOk (validate_agent_count (some a.momentum_agents))
  && exceptIsOk (validate_starting_cash a.starting_cash)

/-- The auto-generated configuration name (lines 1090-1098). -/
def autoName (inp : MainInput) (a : Args) : String :=
  let total := a.market_makers + a.adaptive_market_makers + a.zero_intelligence +
    a.noise_agents + a.value_agents + a.momentum_agents
  match inp.template with
  | some t => "abides_" ++ t ++ "_" ++ toString total ++ "agents_" ++ inp.timestamp
  | none => "abides_config_" ++ toString total ++ "agents_" ++ inp.timestamp

/-- The configuration name passed to validate_config_filename: the callers
name unless it is falsy (missing or empty). -/
def chosenName (inp : MainInput) (a : Args) : String :=
  match inp.configName with
  | some s => if s = "" then autoName inp a else s
  | none => autoName inp a

/-- main (lines 1011-1171).  Returns the exit status and the file at the
output path.  Early informational modes return before any other step; the
mode-conflict check precedes them not; hard validation failures return status
1 with the file untouched; generation removes the file and appends the
sections in order. -/
def mainRun (inp : MainInput) (file : Option (List SectionKind)) :
    Int × Option (List SectionKind) :=
  if inp.listTemplates then (0, file)
  else if inp.templateInfo.isSome then (0, file)
  else if inp.gymMode && inp.batchMode then (1, file)
  else if inp.batchMode then (0, file)
  else if inp.gui then ((if inp.guiAvailable then 0 else 1), file)
  else if inp.template.isSome && (inp.template.bind lookupTemplate).isNone then (1, file)
  else if inp.agentsScale ≤ 0 then (1, file)
  else if !(validateInputs inp.currentYear (resolvedArgs inp)) then (1, file)
  else
    match validate_config_filename (some (chosenName inp (resolvedArgs inp))) with
    | .error _ => (1, file)
    | .ok none => (1, file)
    | .ok (some _) =>
      if inp.validateOnly then (0, file)
      else (0, generateAll inp.gymMode)

/-! ## Concrete inputs used by witnesses and counterexamples -/

/-- The argparse defaults (lines 328-377). -/
def defaultArgs : Args :=
  { market_makers := 0
    adaptive_market_makers := 0
    zero_intelligence := 0
    noise_agents := 0
    value_agents := 0
    momentum_agents := 0
    starting_cash := DEFAULT_STARTING_CASH
    symbol := DEFAULT_SYMBOL
    market_date := DEFAULT_MARKET_DATE
    market_open := DEFAULT_MARKET_OPEN
    market_close := DEFAULT_MARKET_CLOSE }

def baseInput : MainInput :=
  { listTemplates := false
    templateInfo := none
    gymMode := false
    batchMode := false
    gui := false
    guiAvailable := false
    validateOnly := false
    template := none
    agentsScale := 1
    configName := some "test_config"
    timestamp := "20260101_120000"
    currentYear := 2026
    args := defaultArgs }

/-- rmsc03 scaled by one tenth, as in the spec example. -/
def inpC3 : MainInput :=
  { baseInput with template := some "rmsc03", agentsScale := 1 / 10 }

/-- A negative agent count supplied by the caller. -/
def inpBad : MainInput :=
  { baseInput with args := { defaultArgs with market_makers := -5 } }

/-- Both gym mode and batch mode together with the template-listing mode. -/
def inpConflict : MainInput :=
  { baseInput with listTemplates := true, gymMode := true, batchMode := true }

/-- Both gym mode and batch mode, with the informational modes off. -/
def inpConflictGen : MainInput :=
  { baseInput with gymMode := true, batchMode := true }

/-- An explicitly supplied market-maker count next to a template. -/
def argsC1 : Args := { defaultArgs with market_makers := 7 }

/-- The count of each agent type in the generated population. -/
def agentTypeCount (mm amm zi na va mo : Nat) : AgentType → Nat
  | .exchange => 1
  | .marketMaker => mm
  | .adaptiveMarketMaker => amm
  | .zeroIntelligence => zi
  | .noiseAgent => na
  | .valueAgent => va
  | .momentumAgent => mo

end ConfigGen

deriving instance DecidableEq for Except

namespace ConfigGen

/-! ## Helper lemmas -/

lemma ratFloor_eq (q : ℚ) : Rat.floor q = ⌊q⌋ := by
  rw [Rat.floor_def]; exact Rat.floor_def' q

lemma validate_market_date_none (cy : Nat) (ds : String) (hp : parseDate ds = none) :
    validate_market_date cy ds = .error "Invalid date format" := by
  unfold validate_market_date
  rw [hp]

lemma validate_market_date_some (cy : Nat) (ds : String) (y mo d : Nat)
    (hp : parseDate ds = some (y, mo, d)) :
    validate_market_date cy ds =
      if y < 1990 ∨ cy + 1 < y then .error "Market date out of range" else .ok ds := by
  unfold validate_market_date
  rw [hp]

lemma applyCount_idem (c : Int) (tv : Option Int) :
    applyCount (applyCount c tv) tv = applyCount c tv := by
  cases tv with
  | none => rfl
  | some v =>
    by_cases h : c = 0
    · by_cases hv : v = 0 <;> simp [applyCount, h, hv]
    · simp [applyCount, h]

lemma applyParam_idem {α : Type} [DecidableEq α] (c d : α) (tv : Option α) :
    applyParam (applyParam c d tv) d tv = applyParam c d tv := by
  cases tv with
  | none => rfl
  | some v =>
    by_cases h : c = d
    · by_cases hv : v = d <;> simp [applyParam, h, hv]
    · simp [applyParam, h]

/-! ## C1 -/

/-- C1: for every configuration field a template defines, the resolved value
of apply_template_to_args equals the caller value whenever the caller
explicitly supplied one (a nonzero agent count, or a market parameter
differing from the built-in default) and the template value otherwise. -/
theorem template_explicit_wins (t : Template) (a : Args) :
    (∀ v, t.market_makers = some v →
      (apply_template_to_args t a).market_makers =
        if a.market_makers ≠ 0 then a.market_makers else v)
    ∧ (∀ v, t.adaptive_market_makers = some v →
      (apply_template_to_args t a).adaptive_market_makers =
        if a.adaptive_market_makers ≠ 0 then a.adaptive_market_makers else v)
    ∧ (∀ v, t.zero_intelligence = some v →
      (apply_template_to_args t a).zero_intelligence =
        if a.zero_intelligence ≠ 0 then a.zero_intelligence else v)
    ∧ (∀ v, t.noise_agents = some v →
      (apply_template_to_args t a).noise_agents =
        if a.noise_agents ≠ 0 then a.noise_agents else v)
    ∧ (∀ v, t.value_agents = some v →
      (apply_template_to_args t a).value_agents =
        if a.value_agents ≠ 0 then a.value_agents else v)
    ∧ (∀ v, t.momentum_agents = some v →
      (apply_template_to_args t a).momentum_agents =
        if a.momentum_agents ≠ 0 then a.momentum_agents else v)
    ∧ (∀ p v, t.market_params = some p → p.starting_cash = some v →
      (apply_template_to_args t a).starting_cash =
        if a.starting_cash ≠ DEFAULT_STARTING_CASH then a.starting_cash else v)
    ∧ (∀ p v, t.market_params = some p → p.symbol = some v →
      (apply_template_to_args t a).symbol =
        if a.symbol ≠ DEFAULT_SYMBOL then a.symbol else v)
    ∧ (∀ p v, t.market_params = some p → p.market_date = some v →
      (apply_template_to_args t a).market_date =
        if a.market_date ≠ DEFAULT_MARKET_DATE then a.market_date else v)
    ∧ (∀ p v, t.market_params = some p → p.market_open = some v →
      (apply_template_to_args t a).market_open =
        if a.market_open ≠ DEFAULT_MARKET_OPEN then a.market_open else v)
    ∧ (∀ p v, t.market_params = some p → p.market_close = some v →
      (apply_template_to_args t a).market_close =
        if a.market_close ≠ DEFAULT_MARKET_CLOSE then a.market_close else v) := by
  refine ⟨?_, ?_, ?_, ?_, ?_, ?_, ?_, ?_, ?_, ?_, ?_⟩
  all_goals
    first
    | (intro v hv
       cases hmp : t.market_params <;>
         (simp only [apply_template_to_args, hmp, applyCount, hv]
          split_ifs <;> simp_all))
    | (intro p v hp hv
       simp only [apply_template_to_args, hp, applyParam, hv]
       split_ifs <;> simp_all)

/-- Witness for C1 at the rmsc03 template: an explicit market-maker count of 7
beats the template value 0, and the untouched noise count 0 defers to the
template value 5000. -/
theorem template_explicit_wins_witness :
    (apply_template_to_args rmsc03 argsC1).market_makers = 7
    ∧ (apply_template_to_args rmsc03 argsC1).noise_agents = 5000 := by
  have h := template_explicit_wins rmsc03 argsC1
  constructor
  · have h1 := h.1 0 rfl
    norm_num [argsC1, defaultArgs] at h1
    exact h1
  · have h2 := h.2.2.2.1 5000 rfl
    norm_num [argsC1, defaultArgs] at h2
    exact h2

/-! ## C9 -/

/-- C9: applying apply_template_to_args twice in succession yields the same
argument values as applying it once, for every template and argument state. -/
theorem template_resolution_idempotent (t : Template) (a : Args) :
    apply_template_to_args t (apply_template_to_args t a) = apply_template_to_args t a := by
  cases hmp : t.market_params <;>
    simp [apply_template_to_args, hmp, applyCount_idem, applyParam_idem]

/-! ## C3 -/

lemma scaleCount_spec (s : ℚ) (c : Int) (hs : 0 < s) (hc : 0 ≤ c) :
    scaleCount s c = ⌊(c : ℚ) * s⌋ ∧ 0 ≤ scaleCount s c ∧
    exceptIsOk (validate_agent_count (some (scaleCount s c))) = true := by
  have hq : (0 : ℚ) ≤ (c : ℚ) * s := by
    have : (0 : ℚ) ≤ (c : ℚ) := by exact_mod_cast hc
    exact mul_nonneg this hs.le
  have h1 : scaleCount s c = ⌊(c : ℚ) * s⌋ := by
    simp [scaleCount, pyInt, hq, ratFloor_eq]
  have h2 : 0 ≤ scaleCount s c := by
    rw [h1]; exact Int.floor_nonneg.mpr hq
  refine ⟨h1, h2, ?_⟩
  simp [validate_agent_count, exceptIsOk, not_lt.mpr h2]

lemma count_identity_spec (c : Int) (hc : 0 ≤ c) :
    c = ⌊(c : ℚ) * 1⌋ ∧ 0 ≤ c ∧
    exceptIsOk (validate_agent_count (some c)) = true := by
  refine ⟨by simp, hc, ?_⟩
  simp [validate_agent_count, exceptIsOk, not_lt.mpr hc]

/-- C3: for every positive scaling factor s and every argument state, each
resolved count equals the floor of the post-template count times s (the
Python float factor is embedded as an exact rational); the result is
non-negative, and a result of zero passes validate_agent_count, so it is not
an error.  resolvedArgs applies the scaling step after template resolution,
as main does. -/
theorem scaling_floor_after_template (inp : MainInput) (hs : 0 < inp.agentsScale) :
    (0 ≤ (templateApplied inp).market_makers →
      (resolvedArgs inp).market_makers =
        ⌊((templateApplied inp).market_makers : ℚ) * inp.agentsScale⌋
      ∧ 0 ≤ (resolvedArgs inp).market_makers
      ∧ exceptIsOk (validate_agent_count (some ((resolvedArgs inp).market_makers))) = true)
    ∧ (0 ≤ (templateApplied inp).adaptive_market_makers →
      (resolvedArgs inp).adaptive_market_makers =
        ⌊((templateApplied inp).adaptive_market_makers : ℚ) * inp.agentsScale⌋
      ∧ 0 ≤ (resolvedArgs inp).adaptive_market_makers
      ∧ exceptIsOk (validate_agent_count
          (some ((resolvedArgs inp).adaptive_market_makers))) = true)
    ∧ (0 ≤ (templateApplied inp).zero_intelligence →
      (resolvedArgs inp).zero_intelligence =
        ⌊((templateApplied inp).zero_intelligence : ℚ) * inp.agentsScale⌋
      ∧ 0 ≤ (resolvedArgs inp).zero_intelligence
      ∧ exceptIsOk (validate_agent_count
          (some ((resolvedArgs inp).zero_intelligence))) = true)
    ∧ (0 ≤ (templateApplied inp).noise_agents →
      (resolvedArgs inp).noise_agents =
        ⌊((templateApplied inp).noise_agents : ℚ) * inp.agentsScale⌋
      ∧ 0 ≤ (resolvedArgs inp).noise_agents
      ∧ exceptIsOk (validate_agent_count (some ((resolvedArgs inp).noise_agents))) = true)
    ∧ (0 ≤ (templateApplied inp).value_agents →
      (resolvedArgs inp).value_agents =
        ⌊((templateApplied inp).value_agents : ℚ) * inp.agentsScale⌋
      ∧ 0 ≤ (resolvedArgs inp).value_agents
      ∧ exceptIsOk (validate_agent_count (some ((resolvedArgs inp).value_agents))) = true)
    ∧ (0 ≤ (templateApplied inp).momentum_agents →
      (resolvedArgs inp).momentum_agents =
        ⌊((templateApplied inp).momentum_agents : ℚ) * inp.agentsScale⌋
      ∧ 0 ≤ (resolvedArgs inp).momentum_agents
      ∧ exceptIsOk (validate_agent_count
          (some ((resolvedArgs inp).momentum_agents))) = true) := by
  by_cases h1 : inp.agentsScale = 1
  · have hr : resolvedArgs inp = templateApplied inp := by
      simp [resolvedArgs, scaleArgs, h1]
    rw [hr, h1]
    refine ⟨?_, ?_, ?_, ?_, ?_, ?_⟩ <;> intro hc <;> exact count_identity_spec _ hc
  · have e1 : (resolvedArgs inp).market_makers =
        scaleCount inp.agentsScale (templateApplied inp).market_makers := by
      simp [resolvedArgs, scaleArgs, h1]
    have e2 : (resolvedArgs inp).adaptive_market_makers =
        scaleCount inp.agentsScale (templateApplied inp).adaptive_market_makers := by
      simp [resolvedArgs, scaleArgs, h1]
    have e3 : (resolvedArgs inp).zero_intelligence =
        scaleCount inp.agentsScale (templateApplied inp).zero_intelligence := by
      simp [resolvedArgs, scaleArgs, h1]
    have e4 : (resolvedArgs inp).noise_agents =
        scaleCount inp.agentsScale (templateApplied inp).noise_agents := by
      simp [resolvedArgs, scaleArgs, h1]
    have e5 : (resolvedArgs inp).value_agents =
        scaleCount inp.agentsScale (templateApplied inp).value_agents := by
      simp [resolvedArgs, scaleArgs, h1]
    have e6 : (resolvedArgs inp).momentum_agents =
        scaleCount inp.agentsScale (templateApplied inp).momentum_agents := by
      simp [resolvedArgs, scaleArgs, h1]
    refine ⟨?_, ?_, ?_, ?_, ?_, ?_⟩ <;> intro hc
    · rw [e1]; exact scaleCount_spec _ _ hs hc
    · rw [e2]; exact scaleCount_spec _ _ hs hc
    · rw [e3]; exact scaleCount_spec _ _ hs hc
    · rw [e4]; exact scaleCount_spec _ _ hs hc
    · rw [e5]; exact scaleCount_spec _ _ hs hc
    · rw [e6]; exact scaleCount_spec _ _ hs hc

/-- Witness for C3: the rmsc03 template scaled by one tenth resolves the
noise count to 500 and the momentum count to floor of 2.5, that is 2. -/
theorem scaling_floor_after_template_witness :
    (resolvedArgs inpC3).noise_agents = 500
    ∧ (resolvedArgs inpC3).momentum_agents = 2 := by
  have hs : (0 : ℚ) < inpC3.agentsScale := by norm_num [inpC3, baseInput]
  have h := scaling_floor_after_template inpC3 hs
  have hna : (templateApplied inpC3).noise_agents = 5000 := by decide
  have hmo : (templateApplied inpC3).momentum_agents = 25 := by decide
  have hsc : inpC3.agentsScale = 1 / 10 := rfl
  constructor
  · have hx := (h.2.2.2.1 (by rw [hna]; norm_num)).1
    rw [hna, hsc] at hx
    rw [hx]
    norm_num
  · have hx := (h.2.2.2.2.2 (by rw [hmo]; norm_num)).1
    rw [hmo, hsc] at hx
    rw [hx]
    norm_num

/-! ## C5 -/

/-- C5: the validators raise exactly for negative counts, negative cash,
non-positive scale, and date or time strings failing the fixed-format parse
(dates also for years outside 1990..currentYear+1); the other boundary
conditions only set the warning flag and the value is returned unchanged. -/
theorem validators_characterization (c cash : Int) (s : ℚ) (cy : Nat) (ds ts : String) :
    (exceptIsOk (validate_agent_count (some c)) = true ↔ 0 ≤ c)
    ∧ (0 ≤ c → validate_agent_count (some c) = .ok (c, decide (10000 < c)))
    ∧ (exceptIsOk (validate_starting_cash cash) = true ↔ 0 ≤ cash)
    ∧ (0 ≤ cash → validate_starting_cash cash =
        .ok (cash, decide (cash = 0 ∨ cash < 100000 ∨ 10000000000 < cash)))
    ∧ (exceptIsOk (validate_agents_scale s) = true ↔ 0 < s)
    ∧ (0 < s → validate_agents_scale s = .ok (s, decide (10 < s ∨ s < 1 / 100)))
    ∧ (exceptIsOk (validate_market_time ts) = true ↔ (parseTime ts).isSome = true)
    ∧ (∀ h m sec, parseTime ts = some (h, m, sec) →
        validate_market_time ts = .ok (ts, decide (h < 4 ∨ 22 < h)))
    ∧ (exceptIsOk (validate_market_date cy ds) = true ↔
        ∃ y mo d, parseDate ds = some (y, mo, d) ∧ 1990 ≤ y ∧ y ≤ cy + 1)
    ∧ (exceptIsOk (validate_market_date cy ds) = true → validate_market_date cy ds = .ok ds) := by
  refine ⟨?_, ?_, ?_, ?_, ?_, ?_, ?_, ?_, ?_, ?_⟩
  · simp only [validate_agent_count]
    split_ifs with h <;> simp [exceptIsOk] <;> omega
  · intro h
    simp only [validate_agent_count]
    rw [if_neg (not_lt.mpr h)]
  · simp only [validate_starting_cash]
    split_ifs with h <;> simp [exceptIsOk] <;> omega
  · intro h
    simp only [validate_starting_cash]
    rw [if_neg (not_lt.mpr h)]
  · simp only [validate_agents_scale]
    split_ifs with h <;> simp [exceptIsOk]
    · exact h
    · exact lt_of_not_le h
  · intro h
    simp only [validate_agents_scale]
    rw [if_neg (not_le.mpr h)]
  · simp only [validate_market_time]
    cases hp : parseTime ts with
    | none => simp [exceptIsOk]
    | some v => simp [exceptIsOk]
  · intro h m sec hp
    simp only [validate_market_time, hp]
  · cases hp : parseDate ds with
    | none => simp [validate_market_date_none cy ds hp, exceptIsOk]
    | some v =>
      obtain ⟨y, mo, d⟩ := v
      rw [validate_market_date_some cy ds y mo d hp]
      split_ifs with h <;> simp [exceptIsOk] <;> omega
  · intro hok
    cases hp : parseDate ds with
    | none =>
      rw [validate_market_date_none cy ds hp] at hok
      simp [exceptIsOk] at hok
    | some v =>
      obtain ⟨y, mo, d⟩ := v
      rw [validate_market_date_some cy ds y mo d hp] at hok ⊢
      split_ifs at hok ⊢ with h
      · simp [exceptIsOk] at hok
      · rfl

/-- Witness for C5: concrete validator runs, with warnings exactly where the
characterization predicts them. -/
theorem validators_characterization_witness :
    validate_agent_count (some 5) = .ok (5, false)
    ∧ validate_market_time "23:30:00" = .ok ("23:30:00", true)
    ∧ validate_market_date 2026 "2019-06-28" = .ok "2019-06-28" := by
  have h := validators_characterization 5 1000000 1 2026 "2019-06-28" "23:30:00"
  refine ⟨?_, ?_, ?_⟩
  · have h1 := h.2.1 (by norm_num)
    simpa using h1
  · have h2 := h.2.2.2.2.2.2.2.1 23 30 0 (by decide)
    simpa using h2
  · exact h.2.2.2.2.2.2.2.2.2 (by decide)

/-! ## C6 -/

lemma rangeFrom_append (s a b : Nat) :
    rangeFrom s a ++ rangeFrom (s + a) b = rangeFrom s (a + b) := by
  simp only [rangeFrom, List.range_add, List.map_append, List.map_map]
  congr 1
  refine List.map_congr_left fun x _ => ?_
  simp [Function.comp]
  omega

lemma rangeFrom_zero_start (n : Nat) : rangeFrom 0 n = List.range n := by
  simp [rangeFrom]

lemma cons_zero_rangeFrom (n : Nat) : (0 :: rangeFrom 1 n) = rangeFrom 0 (1 + n) := by
  have h := rangeFrom_append 0 1 n
  rw [← h]
  rfl

lemma blockJoin (t : AgentType) (c n : Nat) :
    ((if 0 < n then [(t, rangeFrom c n)] else []).map Prod.snd).flatten = rangeFrom c n := by
  by_cases h : 0 < n
  · simp [h]
  · have hn : n = 0 := by omega
    subst hn
    simp [rangeFrom]

lemma rangeFrom_length (s n : Nat) : (rangeFrom s n).length = n := by
  simp [rangeFrom]

lemma mem_ifBlock {b : AgentType × List Nat} {t : AgentType} {c n : Nat}
    (hb : b ∈ (if 0 < n then [(t, rangeFrom c n)] else [])) :
    b = (t, rangeFrom c n) ∧ 0 < n := by
  split_ifs at hb with h
  · simp at hb
    exact ⟨hb, h⟩
  · simp at hb

lemma map_fst_ifBlock (t : AgentType) (c n : Nat) :
    ((if 0 < n then [(t, rangeFrom c n)] else []).map Prod.fst) =
      (if 0 < n then [t] else []) := by
  split_ifs <;> simp

lemma mem_if_singleton (t u : AgentType) (c : Prop) [Decidable c] :
    (t ∈ if c then [u] else []) ↔ (c ∧ t = u) := by
  split_ifs with h <;> simp [h]

/-- C6: the generated identifiers are exactly 0, 1, ..., total: the Exchange
agent is the single block with identifier 0 at the head, every other block
carries a non-Exchange type, the concatenated identifier lists form the
contiguous range starting at 0, and the final running counter is 1 plus the
sum of the resolved counts. -/
theorem agents_identifiers (mm amm zi na va mo : Nat) :
    ((agentsBlocks mm amm zi na va mo).map Prod.snd).flatten
      = List.range (finalAgentCount mm amm zi na va mo)
    ∧ finalAgentCount mm amm zi na va mo = 1 + (mm + amm + zi + na + va + mo)
    ∧ (agentsBlocks mm amm zi na va mo).head? = some (AgentType.exchange, [0])
    ∧ ∀ b ∈ (agentsBlocks mm amm zi na va mo).tail, b.1 ≠ AgentType.exchange := by
  refine ⟨?_, ?_, ?_, ?_⟩
  · simp only [agentsBlocks, List.map_cons, List.flatten_cons, List.map_append,
      List.flatten_append, blockJoin]
    have h1 := rangeFrom_append 1 mm zi
    have h2 := rangeFrom_append 1 (mm + zi) na
    rw [show 1 + (mm + zi) = 1 + mm + zi from by omega] at h2
    have h3 := rangeFrom_append 1 (mm + zi + na) va
    rw [show 1 + (mm + zi + na) = 1 + mm + zi + na from by omega] at h3
    have h4 := rangeFrom_append 1 (mm + zi + na + va) mo
    rw [show 1 + (mm + zi + na + va) = 1 + mm + zi + na + va from by omega] at h4
    have h5 := rangeFrom_append 1 (mm + zi + na + va + mo) amm
    rw [show 1 + (mm + zi + na + va + mo) = 1 + mm + zi + na + va + mo from by omega] at h5
    rw [h1, h2, h3, h4, h5, List.singleton_append, cons_zero_rangeFrom, rangeFrom_zero_start]
    congr 1
    simp only [finalAgentCount]
    omega
  · simp only [finalAgentCount]
    omega
  · rfl
  · intro b hb
    simp only [agentsBlocks, List.tail_cons, List.mem_append] at hb
    rcases hb with (((((h | h) | h) | h) | h) | h) <;>
      (rw [(mem_ifBlock h).1]; simp)

/-! ## C2 -/

/-- C2 counterexample: with one adaptive market maker and one
zero-intelligence agent, the code emits the zero-intelligence block before
the adaptive-market-maker block, while the claimed fixed order (market maker,
adaptive market maker, zero-intelligence, noise, value, momentum) would emit
the adaptive-market-maker block first. -/
theorem agents_order_counterexample :
    (agentsBlocks 0 1 1 0 0 0).map Prod.fst =
      [AgentType.exchange, AgentType.zeroIntelligence, AgentType.adaptiveMarketMaker]
    ∧ (specOrderAgentsBlocks 0 1 1 0 0 0).map Prod.fst =
      [AgentType.exchange, AgentType.adaptiveMarketMaker, AgentType.zeroIntelligence]
    ∧ agentsBlocks 0 1 1 0 0 0 ≠ specOrderAgentsBlocks 0 1 1 0 0 0 := by
  decide

/-- C2 amended: the Exchange agent is emitted first with identifier 0, and the
per-type blocks follow in the fixed code order market maker, zero-intelligence,
noise, value, momentum, adaptive market maker; a type appears exactly when its
resolved count is positive, and each block constructs exactly that many
instances. -/
theorem agents_emission_order (mm amm zi na va mo : Nat) :
    (agentsBlocks mm amm zi na va mo).head? = some (AgentType.exchange, [0])
    ∧ ((agentsBlocks mm amm zi na va mo).map Prod.fst).Sublist
        [AgentType.exchange, AgentType.marketMaker, AgentType.zeroIntelligence,
         AgentType.noiseAgent, AgentType.valueAgent, AgentType.momentumAgent,
         AgentType.adaptiveMarketMaker]
    ∧ (AgentType.marketMaker ∈ (agentsBlocks mm amm zi na va mo).map Prod.fst ↔ 0 < mm)
    ∧ (AgentType.zeroIntelligence ∈ (agentsBlocks mm amm zi na va mo).map Prod.fst ↔ 0 < zi)
    ∧ (AgentType.noiseAgent ∈ (agentsBlocks mm amm zi na va mo).map Prod.fst ↔ 0 < na)
    ∧ (AgentType.valueAgent ∈ (agentsBlocks mm amm zi na va mo).map Prod.fst ↔ 0 < va)
    ∧ (AgentType.momentumAgent ∈ (agentsBlocks mm amm zi na va mo).map Prod.fst ↔ 0 < mo)
    ∧ (AgentType.adaptiveMarketMaker ∈ (agentsBlocks mm amm zi na va mo).map Prod.fst ↔ 0 < amm)
    ∧ ∀ b ∈ agentsBlocks mm amm zi na va mo,
        b.2.length = agentTypeCount mm amm zi na va mo b.1 := by
  have hmap : (agentsBlocks mm amm zi na va mo).map Prod.fst =
      AgentType.exchange ::
        ((if 0 < mm then [AgentType.marketMaker] else []) ++
         (if 0 < zi then [AgentType.zeroIntelligence] else []) ++
         (if 0 < na then [AgentType.noiseAgent] else []) ++
         (if 0 < va then [AgentType.valueAgent] else []) ++
         (if 0 < mo then [AgentType.momentumAgent] else []) ++
         (if 0 < amm then [AgentType.adaptiveMarketMaker] else [])) := by
    simp only [agentsBlocks, List.map_cons, List.map_append, map_fst_ifBlock]
  refine ⟨rfl, ?_, ?_, ?_, ?_, ?_, ?_, ?_, ?_⟩
  · rw [hmap]
    by_cases hmm : 0 < mm <;> by_cases hzi : 0 < zi <;> by_cases hna : 0 < na <;>
      by_cases hva : 0 < va <;> by_cases hmo : 0 < mo <;> by_cases hamm : 0 < amm <;>
      simp only [hmm, hzi, hna, hva, hmo, hamm, if_true, if_false, if_pos, if_neg,
        List.append_nil, List.nil_append, List.singleton_append] <;>
      decide
  · simp [hmap, List.mem_append, mem_if_singleton]
  · simp [hmap, List.mem_append, mem_if_singleton]
  · simp [hmap, List.mem_append, mem_if_singleton]
  · simp [hmap, List.mem_append, mem_if_singleton]
  · simp [hmap, List.mem_append, mem_if_singleton]
  · simp [hmap, List.mem_append, mem_if_singleton]
  · intro b hb
    simp only [agentsBlocks, List.mem_cons, List.mem_append] at hb
    rcases hb with h | (((((h | h) | h) | h) | h) | h)
    · rw [h]
      rfl
    all_goals
      (rw [(mem_ifBlock h).1]
       simp [rangeFrom_length, agentTypeCount])

/-! ## C7 -/

lemma generateAll_eq (g : Bool) : generateAll g = some (sectionsList g) := by
  cases g <;> rfl

/-- C7: when a generation run goes through (informational modes off, template
known, positive scale, all validators pass, valid filename, not validate-only),
the file at the output path afterwards holds exactly the ordered section list
imports, config, oracle, agents, kernel, then gym iff gym mode, independent of
any pre-existing file; each section occurs exactly once, and re-running
against the produced file yields the same result. -/
theorem main_generates_each_section_once (inp : MainInput) (file : Option (List SectionKind))
    (h1 : inp.listTemplates = false) (h2 : inp.templateInfo = none)
    (h3 : inp.batchMode = false) (h4 : inp.gui = false)
    (h5 : inp.template = none ∨ (inp.template.bind lookupTemplate).isSome = true)
    (h6 : 0 < inp.agentsScale)
    (h7 : validateInputs inp.currentYear (resolvedArgs inp) = true)
    (h8 : ∃ out, validate_config_filename (some (chosenName inp (resolvedArgs inp))) =
        .ok (some out))
    (h9 : inp.validateOnly = false) :
    mainRun inp file = (0, some (sectionsList inp.gymMode))
    ∧ (sectionsList inp.gymMode).count SectionKind.imports = 1
    ∧ (sectionsList inp.gymMode).count SectionKind.config = 1
    ∧ (sectionsList inp.gymMode).count SectionKind.oracle = 1
    ∧ (sectionsList inp.gymMode).count SectionKind.agents = 1
    ∧ (sectionsList inp.gymMode).count SectionKind.kernel = 1
    ∧ (sectionsList inp.gymMode).count SectionKind.gym = (if inp.gymMode = true then 1 else 0)
    ∧ mainRun inp (mainRun inp file).2 = mainRun inp file := by
  obtain ⟨out, hout⟩ := h8
  have htemp : (inp.template.isSome && (inp.template.bind lookupTemplate).isNone) = false := by
    rcases h5 with h5 | h5
    · simp [h5]
    · obtain ⟨tv, htv⟩ := Option.isSome_iff_exists.mp h5
      simp [htv]
  have hmain : ∀ f, mainRun inp f = (0, some (sectionsList inp.gymMode)) := by
    intro f
    simp [mainRun, h1, h2, h3, h4, htemp, not_le.mpr h6, h7, hout, h9, generateAll_eq]
  refine ⟨hmain file, ?_, ?_, ?_, ?_, ?_, ?_, by simp [hmain]⟩ <;>
    cases hg : inp.gymMode <;> decide

/-- Witness for C7: a default run produces the five mandatory sections. -/
theorem main_generates_each_section_once_witness :
    mainRun baseInput none =
      (0, some [SectionKind.imports, SectionKind.config, SectionKind.oracle,
                SectionKind.agents, SectionKind.kernel]) := by
  have h := main_generates_each_section_once baseInput none rfl rfl rfl rfl
    (Or.inl rfl) (by norm_num [baseInput]) (by decide) ⟨"test_config.py", by decide⟩ rfl
  simpa [sectionsList] using h.1

/-! ## C4 -/

/-- C4: whenever a hard validation check fails in a generation run (template
known or absent, informational modes off), the run exits with status 1 and the
file at the output path is neither removed nor written: non-positive scale,
any validator failure on the resolved arguments, and an invalid or rejected
filename all abort before any artifact mutation. -/
theorem main_aborts_on_validation_failure (inp : MainInput) (file : Option (List SectionKind))
    (h1 : inp.listTemplates = false) (h2 : inp.templateInfo = none)
    (h3 : inp.batchMode = false) (h4 : inp.gui = false)
    (h5 : inp.template = none ∨ (inp.template.bind lookupTemplate).isSome = true)
    (hfail : inp.agentsScale ≤ 0
      ∨ validateInputs inp.currentYear (resolvedArgs inp) = false
      ∨ exceptIsOk (validate_config_filename (some (chosenName inp (resolvedArgs inp)))) = false
      ∨ validate_config_filename (some (chosenName inp (resolvedArgs inp))) = .ok none) :
    mainRun inp file = (1, file) := by
  have htemp : (inp.template.isSome && (inp.template.bind lookupTemplate).isNone) = false := by
    rcases h5 with h5 | h5
    · simp [h5]
    · obtain ⟨tv, htv⟩ := Option.isSome_iff_exists.mp h5
      simp [htv]
  by_cases hsc : inp.agentsScale ≤ 0
  · simp [mainRun, h1, h2, h3, h4, htemp, hsc]
  · rcases hfail with hf | hf | hf | hf
    · exact absurd hf hsc
    · simp [mainRun, h1, h2, h3, h4, htemp, hsc, hf]
    · cases hcf : validate_config_filename (some (chosenName inp (resolvedArgs inp))) with
      | error e =>
        cases hv : validateInputs inp.currentYear (resolvedArgs inp) <;>
          simp [mainRun, h1, h2, h3, h4, htemp, hsc, hv, hcf]
      | ok o =>
        rw [hcf] at hf
        simp [exceptIsOk] at hf
    · cases hv : validateInputs inp.currentYear (resolvedArgs inp) <;>
        simp [mainRun, h1, h2, h3, h4, htemp, hsc, hv, hf]

/-- Witness for C4: a negative market-maker count aborts with status 1 and a
pre-existing file at the output path is left untouched. -/
theorem main_aborts_on_validation_failure_witness :
    mainRun inpBad (some [SectionKind.imports]) = (1, some [SectionKind.imports]) := by
  exact main_aborts_on_validation_failure inpBad (some [SectionKind.imports])
    rfl rfl rfl rfl (Or.inl rfl) (Or.inr (Or.inl (by decide)))

/-! ## C8 -/

/-- C8 counterexample: an invocation requesting gym mode, batch mode and the
template-listing mode together exits with status 0 and reports no
mode-conflict error, because the informational mode returns first. -/
theorem mode_conflict_claim_counterexample :
    inpConflict.gymMode = true ∧ inpConflict.batchMode = true
    ∧ mainRun inpConflict none = (0, none) := by
  decide

/-- C8 amended: with the informational modes off, requesting gym mode and
batch mode together exits with status 1 before any file is removed or
written. -/
theorem mode_conflict_aborts (inp : MainInput) (file : Option (List SectionKind))
    (h1 : inp.listTemplates = false) (h2 : inp.templateInfo = none)
    (hg : inp.gymMode = true) (hb : inp.batchMode = true) :
    mainRun inp file = (1, file) := by
  simp [mainRun, h1, h2, hg, hb]

/-- Witness for the amended C8. -/
theorem mode_conflict_aborts_witness : mainRun inpConflictGen none = (1, none) :=
  mode_conflict_aborts inpConflictGen none rfl rfl rfl rfl

/-! ## C10 -/

lemma replaced_map_alnum (cs : List Char) :
    (cs.map (fun c => if c = '_' then 'a' else if c = '-' then 'a' else c)).all Char.isAlphanum
      = cs.all validFilenameChar := by
  induction cs with
  | nil => rfl
  | cons c rest ih =>
    simp only [List.map_cons, List.all_cons, ih]
    congr 1
    by_cases h1 : c = '_'
    · subst h1; decide
    · by_cases h2 : c = '-'
      · subst h2; decide
      · simp [h1, h2, validFilenameChar]

lemma sanitized_no_py_suffix (cs : List Char) (hall : cs.all validFilenameChar = true) :
    cs.reverse.take 3 ≠ ['y', 'p', '.'] := by
  intro hEq
  have hdot : ('.' : Char) ∈ cs.reverse.take 3 := by rw [hEq]; simp
  have hdot2 : ('.' : Char) ∈ cs := List.mem_reverse.mp (List.mem_of_mem_take hdot)
  have hval := List.all_eq_true.mp hall _ hdot2
  have hfalse : validFilenameChar '.' = false := by decide
  rw [hfalse] at hval
  cases hval

/-- C10 counterexample: a whitespace-only filename is non-empty, its stripped
length is within the limit, and its sanitized form contains no characters at
all, yet validate_config_filename raises the invalid-characters error instead
of returning a sanitized name. -/
theorem filename_claim_counterexample :
    (" " : String) ≠ ""
    ∧ (pyStrip " ").length ≤ MAX_FILENAME_LENGTH
    ∧ pySub (pyStrip " ").toList = []
    ∧ validate_config_filename (some " ") = .error "Filename contains invalid characters" := by
  decide

/-- C10 amended: validate_config_filename returns none for a missing or empty
filename; raises when the stripped name is longer than 100 characters; when
the stripped name sanitizes to a non-empty list of alphanumerics, underscores
and hyphens, it returns that sanitized name with a py suffix appended; and it
raises the invalid-characters error when the sanitized form still contains an
invalid character or is empty (as happens for whitespace-only names). -/
theorem validate_config_filename_characterization (fn : String) :
    validate_config_filename none = .ok none
    ∧ validate_config_filename (some "") = .ok none
    ∧ (fn ≠ "" → MAX_FILENAME_LENGTH < (pyStrip fn).length →
        validate_config_filename (some fn) = .error "Filename too long")
    ∧ (fn ≠ "" → (pyStrip fn).length ≤ MAX_FILENAME_LENGTH →
        (pySub (pyStrip fn).toList).all validFilenameChar = true →
        pySub (pyStrip fn).toList ≠ [] →
        validate_config_filename (some fn) =
          .ok (some (String.mk (pySub (pyStrip fn).toList ++ ['.', 'p', 'y'])))
        ∧ ['.', 'p', 'y'] <:+ (pySub (pyStrip fn).toList ++ ['.', 'p', 'y']))
    ∧ (fn ≠ "" → (pyStrip fn).length ≤ MAX_FILENAME_LENGTH →
        ((pySub (pyStrip fn).toList).all validFilenameChar = false
          ∨ pySub (pyStrip fn).toList = []) →
        validate_config_filename (some fn) = .error "Filename contains invalid characters") := by
  refine ⟨rfl, rfl, ?_, ?_, ?_⟩
  · intro hne hlen
    simp only [validate_config_filename]
    rw [if_neg hne, if_pos hlen]
  · intro hne hlen hall hnonempty
    simp only [validate_config_filename]
    rw [if_neg hne, if_neg (not_lt.mpr hlen)]
    have hemp : ((pySub (pyStrip fn).toList).map
        (fun c => if c = '_' then 'a' else if c = '-' then 'a' else c)).isEmpty = false := by
      cases h : pySub (pyStrip fn).toList with
      | nil => exact absurd h hnonempty
      | cons a l => rfl
    have hallm : ((pySub (pyStrip fn).toList).map
        (fun c => if c = '_' then 'a' else if c = '-' then 'a' else c)).all
          Char.isAlphanum = true := by
      rw [replaced_map_alnum]; exact hall
    rw [hemp, hallm]
    simp only [Bool.not_true, Bool.or_false]
    rw [if_neg (by simp)]
    rw [if_neg (sanitized_no_py_suffix _ hall)]
    exact ⟨rfl, List.suffix_append _ _⟩
  · intro hne hlen hbad
    simp only [validate_config_filename]
    rw [if_neg hne, if_neg (not_lt.mpr hlen)]
    have hcond : (((pySub (pyStrip fn).toList).map
          (fun c => if c = '_' then 'a' else if c = '-' then 'a' else c)).isEmpty
        || !(((pySub (pyStrip fn).toList).map
          (fun c => if c = '_' then 'a' else if c = '-' then 'a' else c)).all
            Char.isAlphanum)) = true := by
      rcases hbad with hf | hf
      · rw [replaced_map_alnum, hf]
        simp
      · rw [hf]
        rfl
    rw [hcond]
    rw [if_pos rfl]

/-- Witness for the amended C10: a name with an inner space sanitizes to a
single underscore and gains the py suffix. -/
theorem validate_config_filename_characterization_witness :
    validate_config_filename (some "my config") = .ok (some "my_config.py") := by
  have h := (validate_config_filename_characterization "my config").2.2.2.1
    (by decide) (by decide) (by decide) (by decide)
  rw [h.1]
  decide

end ConfigGen
